import Mathlib

/-!
Shallow embedding of the keras-io guide sources:

* `guides/ipynb/keras_core/custom_train_step_in_jax.ipynb` — the
  `CustomModel` class overriding `compute_loss_and_updates`, `train_step`
  and `test_step` as pure functions over explicit state tuples, delegating
  every numerical operation (forward pass, loss, autodiff, optimizer
  update, metric update) to the external framework;
* the Sequential-model guide (`src/unnamed/part_000`) — Sequential model
  construction, the built/unbuilt lifecycle, snippet ordering, and the
  parameter-count / output-shape arithmetic of its `model.summary()` tables.

External-framework primitives (keras `stateless_call`, `compute_loss`,
`optimizer.stateless_apply`, metric `stateless_update_state` /
`stateless_result`, and `jax.value_and_grad`'s gradient part) are not code
of this repository; they are abstract function fields of the `Model` and
`Metric` structures below.  The guide code is embedded verbatim on top of
those fields.
-/

namespace Guides

/-- A compiled metric object as used by the notebook's `CustomModel`:
its `name`, its current variable list (used by the guide code only through
`len(metric.variables)`), and the external framework's stateless update /
result functions.  In Python `stateless_update_state` is one variadic
method; the guide calls it either as `(vars, loss)` (for the metric named
"loss") or as `(vars, y, y_pred)`, so the two call shapes are two fields. -/
structure Metric (α : Type) where
  name : String
  vars : List α
  stateless_update_state_loss : List α → α → List α
  stateless_update_state_pred : List α → α → α → List α
  stateless_result : List α → α

/-- The model object seen by the notebook's `CustomModel` methods: the
external framework's pre-built operations that the guide code calls
(`self.stateless_call`, `self.compute_loss`,
`self.optimizer.stateless_apply`, `self.metrics`, and the gradient part of
`jax.value_and_grad`).  Every field is an external-framework primitive;
none is implemented by the repository. -/
structure Model (α : Type) where
  stateless_call : List α → List α → α → Bool → α × List α
  compute_loss : α → α → α → α
  optimizer_stateless_apply : List α → List α → List α → List α × List α
  metrics : List (Metric α)
  grad : (List α → α) → List α → List α

/-- The explicit state tuple `(trainable_variables,
non_trainable_variables, optimizer_variables, metrics_variables)` unpacked
at the top of `CustomModel.train_step`. -/
structure TrainState (α : Type) where
  trainable_variables : List α
  non_trainable_variables : List α
  optimizer_variables : List α
  metrics_variables : List α
deriving DecidableEq

/-- The explicit state tuple `(trainable_variables,
non_trainable_variables, metrics_variables)` unpacked in
`CustomModel.test_step`. -/
structure TestState (α : Type) where
  trainable_variables : List α
  non_trainable_variables : List α
  metrics_variables : List α
deriving DecidableEq

/-- `CustomModel.compute_loss_and_updates` from the notebook:
`stateless_call` for the forward pass, `compute_loss` for the loss, and
return `loss, (y_pred, non_trainable_variables)` as a value. -/
def compute_loss_and_updates (m : Model α)
    (trainable_variables non_trainable_variables : List α)
    (x y : α) (training : Bool) : α × (α × List α) :=
  let yn := m.stateless_call trainable_variables non_trainable_variables x training
  let y_pred := yn.1
  let ntv := yn.2
  let loss := m.compute_loss x y y_pred
  (loss, (y_pred, ntv))

/-- `jax.value_and_grad(f, has_aux=True)`: the value part is `f` itself;
the gradient part is the external framework's autodiff operator applied to
the scalar (loss) component of `f`. -/
def value_and_grad (m : Model α) (f : List α → α × (α × List α))
    (tv : List α) : (α × (α × List α)) × List α :=
  (f tv, m.grad (fun v => (f v).1) tv)

/-- One iteration of the notebook's metric loop body, shared verbatim by
`train_step` and `test_step`:
`this_metric_vars = metric.stateless_update_state(this_metric_vars, loss)`
when `metric.name == "loss"`, else
`metric.stateless_update_state(this_metric_vars, y, y_pred)`. -/
def updated_metric_vars (metric : Metric α) (loss y y_pred : α)
    (this_metric_vars : List α) : List α :=
  if metric.name = "loss" then
    metric.stateless_update_state_loss this_metric_vars loss
  else
    metric.stateless_update_state_pred this_metric_vars y y_pred

/-- One iteration of the notebook's metric loop: slice
`metrics_variables[len(new_metrics_vars) : len(new_metrics_vars) +
len(metric.variables)]`, update it, overwrite `logs` with
`metric.stateless_result(this_metric_vars)` and extend `new_metrics_vars`.
The accumulator is `(logs, new_metrics_vars)`; `logs` is `Option`-valued
because in Python `logs` is unbound (`NameError`) until the first
iteration assigns it. -/
def metric_loop_step (loss y y_pred : α) (metrics_variables : List α)
    (acc : Option α × List α) (metric : Metric α) : Option α × List α :=
  let sliced := (metrics_variables.drop acc.2.length).take metric.vars.length
  let this_metric_vars := updated_metric_vars metric loss y y_pred sliced
  (some (metric.stateless_result this_metric_vars), acc.2 ++ this_metric_vars)

/-- The notebook's `# Update metrics.` loop (identical in `train_step` and
`test_step`): fold `metric_loop_step` over `self.metrics` starting from
`new_metrics_vars = []` and unbound `logs`. -/
def metric_update_loop (m : Model α) (loss y y_pred : α)
    (metrics_variables : List α) : Option α × List α :=
  m.metrics.foldl (metric_loop_step loss y y_pred metrics_variables)
    (none, [])

/-- `CustomModel.train_step(self, state, data)` from the notebook (first
example): unpack the state tuple and data, get `grad_fn` via
`jax.value_and_grad(self.compute_loss_and_updates, has_aux=True)`, compute
`((loss, (y_pred, non_trainable_variables)), grads)`, update trainable and
optimizer variables via `self.optimizer.stateless_apply`, run the metric
loop, and return `logs, state` as a value. -/
def train_step (m : Model α) (state : TrainState α) (data : α × α) :
    Option α × TrainState α :=
  let trainable_variables := state.trainable_variables
  let non_trainable_variables := state.non_trainable_variables
  let optimizer_variables := state.optimizer_variables
  let metrics_variables := state.metrics_variables
  let x := data.1
  let y := data.2
  let grad_fn := value_and_grad m
    (fun tv => compute_loss_and_updates m tv non_trainable_variables x y true)
  let res := grad_fn trainable_variables
  let loss := res.1.1
  let y_pred := res.1.2.1
  let ntv2 := res.1.2.2
  let grads := res.2
  let applied := m.optimizer_stateless_apply optimizer_variables grads
    trainable_variables
  let tv2 := applied.1
  let ov2 := applied.2
  let lm := metric_update_loop m loss y y_pred metrics_variables
  (lm.1, ⟨tv2, ntv2, ov2, lm.2⟩)

/-- `CustomModel.test_step(self, state, data)` from the notebook: unpack
`(trainable_variables, non_trainable_variables, metrics_variables)`,
forward pass with `training=False`, `compute_loss`, the same metric loop,
and return `logs, state` with the trainable variables unchanged. -/
def test_step (m : Model α) (state : TestState α) (data : α × α) :
    Option α × TestState α :=
  let x := data.1
  let y := data.2
  let trainable_variables := state.trainable_variables
  let non_trainable_variables := state.non_trainable_variables
  let metrics_variables := state.metrics_variables
  let yn := m.stateless_call trainable_variables non_trainable_variables x
    false
  let y_pred := yn.1
  let ntv2 := yn.2
  let loss := m.compute_loss x y y_pred
  let lm := metric_update_loop m loss y y_pred metrics_variables
  (lm.1, ⟨trainable_variables, ntv2, lm.2⟩)

/-- The effect of calling the method `train_step` on the model object:
the method body contains no assignment to any `self` attribute, so the
model object after the call is the model object before it, and the result
is returned as a value. -/
def train_step_method (m : Model α) (state : TrainState α) (data : α × α) :
    Model α × (Option α × TrainState α) :=
  (m, train_step m state data)

/-- The effect of calling the method `test_step` on the model object: no
`self` attribute is assigned, so the model is unchanged. -/
def test_step_method (m : Model α) (state : TestState α) (data : α × α) :
    Model α × (Option α × TestState α) :=
  (m, test_step m state data)

/-- The effect of calling the method `compute_loss_and_updates` on the
model object: no `self` attribute is assigned, so the model is
unchanged. -/
def compute_loss_and_updates_method (m : Model α)
    (trainable_variables non_trainable_variables : List α)
    (x y : α) (training : Bool) : Model α × (α × (α × List α)) :=
  (m, compute_loss_and_updates m trainable_variables non_trainable_variables
    x y training)

/-! ## The Sequential-model guide -/

/-- A tensor of the Sequential guide's snippets: a batch of feature rows,
with rational entries standing for the framework's float32 values. -/
abbrev Tensor := List (List ℚ)

/-- The `relu` activation used by the guide's `Dense(…, activation="relu")`
layers. -/
def relu (q : ℚ) : ℚ := max q 0

/-- Dot product of two feature vectors. -/
def dot (u v : List ℚ) : ℚ := (List.zipWith (fun a b => a * b) u v).sum

/-- Modelled from the spec: a keras `Dense` layer (external framework code
absent from src/) with `units` output features, a kernel of column count
`units`, a bias, and an activation; its forward pass maps each input row
`r` to `activation (r · kernel + bias)` columnwise. -/
structure DenseLayer where
  units : Nat
  kernel : List (List ℚ)
  bias : List ℚ
  activation : ℚ → ℚ

/-- Forward pass of a `DenseLayer` on a batch: for each row, each output
column `j` is the activation of the dot product with kernel column `j`
plus the bias entry `j`. -/
def DenseLayer.call (l : DenseLayer) (x : Tensor) : Tensor :=
  x.map (fun row =>
    (List.range l.units).map (fun j =>
      l.activation (dot row (l.kernel.map (fun r => r.getD j 0)) +
        l.bias.getD j 0)))

/-- Modelled from the spec: `keras.Sequential` is external framework code
absent from src/; the guide defines it as "a plain stack of layers where
each layer has exactly one input tensor and one output tensor", so calling
the model applies the layers to the input in list order. -/
def sequential_call (layer_list : List (Tensor → Tensor)) (x : Tensor) :
    Tensor :=
  layer_list.foldl (fun t f => f t) x

/-- The composition the guide declares equivalent:
`y = layer3(layer2(layer1(x)))`, i.e. the left-to-right composition of the
layer functions, written as the claim words it (innermost layer first). -/
def compose_layers : List (Tensor → Tensor) → Tensor → Tensor
  | [], x => x
  | f :: fs, x => compose_layers fs (f x)

/-- `ops.ones((n, m))`: the guide's test input tensor. -/
def ones (n m : Nat) : Tensor :=
  List.replicate n (List.replicate m 1)

/-- The state of a Sequential model of `Dense` layers as the guide
describes it: the unit counts of its layers, and — once the model has seen
input data — the feature dimension it was built with (`none` means the
model is not yet built). -/
structure SequentialModel where
  layer_units : List Nat
  built_input_dim : Option Nat
deriving DecidableEq

/-- Modelled from the spec: a built Dense layer's weight variables are a
kernel of shape `(d, u)` and a bias of shape `(u,)` (the guide shows
"weights, of shape (4, 3) and (3,)"). -/
def denseWeightShapes (d u : Nat) : List (List Nat) := [[d, u], [u]]

/-- The weight-shape list of a built stack of Dense layers: each layer
contributes its kernel and bias, and its output dimension feeds the next
layer. -/
def seqWeightShapes (d : Nat) : List Nat → List (List Nat)
  | [] => []
  | u :: us => denseWeightShapes d u ++ seqWeightShapes u us

/-- Modelled from the spec: `model.weights` on an unbuilt Sequential model
"results in an error stating just this" (that it has no weights yet); on a
built model it returns the per-layer kernel and bias variables. -/
def SequentialModel.weights (m : SequentialModel) :
    Except String (List (List Nat)) :=
  match m.built_input_dim with
  | none => .error "weights have not yet been created"
  | some d => .ok (seqWeightShapes d m.layer_units)

/-- Modelled from the spec: "The weights are created when the model first
sees some input data": calling an unbuilt model on an input of feature
dimension `d` builds it with that input shape; a built model keeps its
build state. -/
def SequentialModel.call (m : SequentialModel) (input_dim : Nat) :
    SequentialModel :=
  match m.built_input_dim with
  | none => { m with built_input_dim := some input_dim }
  | some _ => m

/-- The result of running one guide snippet: an error (propagated from the
framework or from an undefined name), or the new binding of the variable
`model` together with the snippet's printed number, if any. -/
abbrev SnippetResult := Except String (Option SequentialModel × Option Nat)

/-- The incremental-construction snippet (guide lines 113–117):
`model = keras.Sequential()` then three `model.add(layers.Dense(…))`
calls.  It rebinds `model`, so it reads nothing from the environment, and
prints nothing. -/
def snippet_add (_env : Option SequentialModel) : SnippetResult :=
  .ok (some ⟨[2, 3, 4], none⟩, none)

/-- The `pop()` snippet (guide lines 124–126): `model.pop()` then
`print(len(model.layers))`.  It reads the variable `model` from the
environment; run with no prior snippet, the name is undefined. -/
def snippet_pop : Option SequentialModel → SnippetResult
  | none => .error "NameError: name model is not defined"
  | some m =>
    let m2 : SequentialModel := { m with layer_units := m.layer_units.dropLast }
    .ok (some m2, some m2.layer_units.length)

/-- The build-by-calling snippet (guide lines 197–215): builds the
three-layer model (the failing `model.weights` / `model.summary()` lines
are commented out in the guide, so they are not evaluated), calls the
model on `ops.ones((1, 4))`, and prints
`len(model.weights)` (documented output: 6).  It rebinds `model`; a
framework error from `model.weights` would propagate, unhandled. -/
def snippet_build_and_call (_env : Option SequentialModel) : SnippetResult :=
  let m : SequentialModel := ⟨[2, 3, 4], none⟩
  let m2 := m.call 4
  match m2.weights with
  | .error e => .error e
  | .ok w => .ok (some m2, some w.length)

/-- Running a list of snippets in document order: thread the binding of
`model` from each snippet to the next, keep the last snippet's printed
output, and propagate any error without handling it (no snippet in the
guide contains an error-handling construct). -/
def run_snippets (snips : List (Option SequentialModel → SnippetResult))
    (env : Option SequentialModel) : SnippetResult :=
  snips.foldl
    (fun acc s =>
      match acc with
      | .error e => .error e
      | .ok (env2, _) => s env2)
    (.ok (env, none))

/-! ## The summary tables of the Sequential guide -/

/-- Modelled from the spec: the parameter count of a Dense layer with
input dimension `n` and `m` units (an `(n, m)` kernel plus an `(m,)`
bias). -/
def dense_param_count (n m : Nat) : Nat := n * m + m

/-- Modelled from the spec: the parameter count of a Conv2D layer with a
`k`-by-`k` kernel, `c` input channels and `f` filters. -/
def conv2d_param_count (k c f : Nat) : Nat := k * k * c * f + f

/-- Modelled from the spec: spatial output size of a valid-padding Conv2D
with kernel `k` and stride `s` on spatial size `n`. -/
def conv2d_output_size (n k s : Nat) : Nat := (n - k) / s + 1

/-- Modelled from the spec: spatial output size of `MaxPooling2D(p)` on
spatial size `n`. -/
def max_pool_output_size (n p : Nat) : Nat := n / p

/-- The `Param #` column of the Dense-stack summary in the guide
(lines 238–265). -/
def dense_stack_param_column : List Nat := [10, 9, 16]

/-- The `Total params` of the Dense-stack summary. -/
def dense_stack_total : Nat := 35

/-- The `Param #` column of the first Conv2D-stack summary
(lines 386–394). -/
def conv_block1_param_column : List Nat := [2432, 9248, 0]

/-- The `Total params` of the first Conv2D-stack summary. -/
def conv_block1_total : Nat := 11680

/-- The `Param #` column of the second Conv2D-stack summary
(lines 424–444). -/
def conv_block2_param_column : List Nat :=
  [2432, 9248, 0, 9248, 9248, 0, 9248, 9248, 0]

/-- The `Total params` of the second Conv2D-stack summary. -/
def conv_block2_total : Nat := 48672

/-- The spatial sizes shown in the first Conv2D-stack summary's
`Output Shape` column: `(123, 123, 32)`, `(121, 121, 32)`,
`(40, 40, 32)`. -/
def conv_block1_spatial_sizes : List Nat := [123, 121, 40]

/-- The spatial sizes of the second Conv2D-stack summary's
`Output Shape` column. -/
def conv_block2_spatial_sizes : List Nat :=
  [123, 121, 40, 38, 36, 12, 10, 8, 4]

/-- The spatial-size trace of the guide's conv/pool stack (lines 350–367,
starting from 250×250 input): `Conv2D(32, 5, strides=2)`, `Conv2D(32, 3)`,
`MaxPooling2D(3)`, `Conv2D(32, 3)`, `Conv2D(32, 3)`, `MaxPooling2D(3)`,
`Conv2D(32, 3)`, `Conv2D(32, 3)`, `MaxPooling2D(2)`, each size computed by
the corresponding formula. -/
def conv_stack_trace : List Nat :=
  let s1 := conv2d_output_size 250 5 2
  let s2 := conv2d_output_size s1 3 1
  let s3 := max_pool_output_size s2 3
  let s4 := conv2d_output_size s3 3 1
  let s5 := conv2d_output_size s4 3 1
  let s6 := max_pool_output_size s5 3
  let s7 := conv2d_output_size s6 3 1
  let s8 := conv2d_output_size s7 3 1
  let s9 := max_pool_output_size s8 2
  [s1, s2, s3, s4, s5, s6, s7, s8, s9]

/-! ## Concrete framework instantiations and homomorphisms

The guide code is parametric in the external framework's primitives; the
following concrete instantiations over `Int` let the embedded code be
evaluated on concrete inputs, and `MetricHom` states that a value
translation commutes with one metric's framework primitives. -/

/-- A concrete "loss"-tracking metric over `Int`. -/
def intMetricLoss : Metric Int where
  name := "loss"
  vars := [0, 0]
  stateless_update_state_loss := fun l v => l.map (fun a => a + v)
  stateless_update_state_pred := fun l y p => l.map (fun a => a + y + p)
  stateless_result := fun l => l.sum

/-- A concrete "mae" metric over `Int`. -/
def intMetricMae : Metric Int where
  name := "mae"
  vars := [0]
  stateless_update_state_loss := fun l v => l.map (fun a => a * v)
  stateless_update_state_pred := fun l y p => l.map (fun a => a + (y - p))
  stateless_result := fun l => l.sum + 100

/-- A metric whose update leaves its variables unchanged and whose result
is the constant `r`: its contribution to the logs is decided purely by the
guide code's loop, not by any numeric computation. -/
def constMetric (nm : String) (k : Nat) (r : Int) : Metric Int where
  name := nm
  vars := List.replicate k 0
  stateless_update_state_loss := fun l _ => l
  stateless_update_state_pred := fun l _ _ => l
  stateless_result := fun _ => r

/-- A concrete instantiation of the framework primitives over `Int`. -/
def intModel : Model Int where
  stateless_call := fun tv ntv x _ => (x + tv.sum, ntv.map (fun a => a + 1))
  compute_loss := fun x y yp => (y - yp) + x
  optimizer_stateless_apply := fun ov g tv =>
    (List.zipWith (fun a b => a - b) tv g, ov.map (fun a => a + 1))
  metrics := [intMetricLoss, intMetricMae]
  grad := fun _ tv => tv.map (fun a => a * 2)

/-- A second instantiation whose framework primitives all differ from
`intModel`'s, but with the same constant metrics as
`intModelConstMetrics`. -/
def intModelB : Model Int where
  stateless_call := fun tv ntv x _ => (x * 3 - tv.sum, ntv.map (fun a => a - 5))
  compute_loss := fun x y yp => (yp - y) * 2 + x + 1
  optimizer_stateless_apply := fun ov g tv =>
    (List.zipWith (fun a b => a + 2 * b) tv g, ov.map (fun a => a - 3))
  metrics := [constMetric "m1" 1 3, constMetric "m2" 1 7]
  grad := fun _ tv => tv.map (fun a => a + 7)

/-- `intModel` with the two constant metrics instead. -/
def intModelConstMetrics : Model Int :=
  { intModel with metrics := [constMetric "m1" 1 3, constMetric "m2" 1 7] }

/-- `intModel` with its two metrics swapped. -/
def intModelSwapped : Model Int :=
  { intModel with metrics := [intMetricMae, intMetricLoss] }

/-- A concrete train-state tuple over `Int`. -/
def intTrainState : TrainState Int :=
  ⟨[1, 2], [3], [4], [0, 0, 0]⟩

/-- A concrete test-state tuple over `Int`. -/
def intTestState : TestState Int :=
  ⟨[1, 2], [3], [0, 0, 0]⟩

/-- Commutation of a value translation `h : α → β` with one metric's
framework primitives: same name, same variable count, and `h` maps each
update / result over. -/
def MetricHom (h : α → β) (ma : Metric α) (mb : Metric β) : Prop :=
  mb.name = ma.name ∧
  mb.vars.length = ma.vars.length ∧
  (∀ l v, mb.stateless_update_state_loss (l.map h) (h v) =
    (ma.stateless_update_state_loss l v).map h) ∧
  (∀ l y p, mb.stateless_update_state_pred (l.map h) (h y) (h p) =
    (ma.stateless_update_state_pred l y p).map h) ∧
  (∀ l, mb.stateless_result (l.map h) = h (ma.stateless_result l))

/-- Concrete weights for the guide's `layer1 = Dense(2, relu)` on
3-dimensional input. -/
def guideLayer1 : DenseLayer :=
  ⟨2, [[1, 0], [0, 1], [1, 1]], [0, 1], relu⟩

/-- Concrete weights for the guide's `layer2 = Dense(3, relu)`. -/
def guideLayer2 : DenseLayer :=
  ⟨3, [[1, 2, 0], [0, 1, 1]], [1, 0, 0], relu⟩

/-- Concrete weights for the guide's `layer3 = Dense(4)` (linear
activation). -/
def guideLayer3 : DenseLayer :=
  ⟨4, [[1, 0, 0, 1], [0, 1, 0, 1], [0, 0, 1, 1]], [0, 0, 0, 1], id⟩

/-! ## Helper lemmas -/

/-- Applying a Sequential stack is the left-to-right composition of its
layer functions. -/
theorem sequential_call_eq_compose_layers
    (ls : List (Tensor → Tensor)) : ∀ t, sequential_call ls t = compose_layers ls t := by
  induction ls with
  | nil => intro t; rfl
  | cons f fs ih =>
    intro t
    simpa [sequential_call, compose_layers] using ih (f t)

/-- A built Dense stack has two weight variables (kernel and bias) per
layer. -/
theorem seqWeightShapes_length (d : Nat) (us : List Nat) :
    (seqWeightShapes d us).length = 2 * us.length := by
  induction us generalizing d with
  | nil => rfl
  | cons u us ih =>
    simp [seqWeightShapes, denseWeightShapes, ih]
    omega

/-- Once the snippet runner is in an error state, the remaining snippets
leave it there: no snippet handles the error. -/
theorem foldl_snippet_error
    (more : List (Option SequentialModel → SnippetResult)) (e : String) :
    more.foldl
      (fun acc s =>
        match acc with
        | Except.error e2 => Except.error e2
        | Except.ok (env2, _) => s env2)
      (Except.error e : SnippetResult) = Except.error e := by
  induction more with
  | nil => rfl
  | cons s rest ih => exact ih

/-- The metric loop extends `new_metrics_vars` by exactly one slice per
metric: if each update preserves its variable count and the incoming
variable list is long enough, the accumulated list grows by the sum of the
metrics' variable counts. -/
theorem metric_loop_foldl_length {α : Type} (loss y y_pred : α)
    (mv : List α) :
    ∀ (ms : List (Metric α)) (acc : Option α × List α),
      (∀ metric ∈ ms, ∀ l : List α,
        (updated_metric_vars metric loss y y_pred l).length = l.length) →
      acc.2.length + (ms.map (fun metric => metric.vars.length)).sum ≤
        mv.length →
      ((ms.foldl (metric_loop_step loss y y_pred mv) acc).2).length =
        acc.2.length + (ms.map (fun metric => metric.vars.length)).sum := by
  intro ms
  induction ms with
  | nil => intro acc _ _; simp
  | cons metric rest ih =>
    intro acc hpres hle
    have hsl : ((mv.drop acc.2.length).take metric.vars.length).length =
        metric.vars.length := by
      simp only [List.length_take, List.length_drop]
      simp only [List.map_cons, List.sum_cons] at hle
      omega
    have hstep : ((metric_loop_step loss y y_pred mv acc metric).2).length =
        acc.2.length + metric.vars.length := by
      simp only [metric_loop_step, List.length_append]
      rw [hpres metric (List.mem_cons_self metric rest), hsl]
    have hrest := ih (metric_loop_step loss y y_pred mv acc metric)
      (fun m2 hm2 => hpres m2 (List.mem_cons_of_mem metric hm2))
      (by
        rw [hstep]
        simp only [List.map_cons, List.sum_cons] at hle
        omega)
    simp only [List.foldl_cons, List.map_cons, List.sum_cons]
    rw [hrest, hstep]
    omega

/-- After the metric loop, `logs` holds the result of the last metric,
computed from the slice of `metrics_variables` starting where the earlier
metrics' updated variables end. -/
theorem metric_loop_foldl_last {α : Type} (loss y y_pred : α)
    (mv : List α) :
    ∀ (ms : List (Metric α)) (metric : Metric α) (acc : Option α × List α),
      ((ms ++ [metric]).foldl (metric_loop_step loss y y_pred mv) acc).1 =
        some (metric.stateless_result
          (updated_metric_vars metric loss y y_pred
            ((mv.drop
              ((ms.foldl (metric_loop_step loss y y_pred mv) acc).2).length).take
              metric.vars.length))) := by
  intro ms
  induction ms with
  | nil => intro metric acc; rfl
  | cons m2 rest ih =>
    intro metric acc
    exact ih metric (metric_loop_step loss y y_pred mv acc m2)

/-- `compute_loss_and_updates` commutes with any value translation that
commutes with the forward pass and the loss. -/
theorem compute_loss_and_updates_hom {α β : Type} (h : α → β)
    (m : Model α) (m2 : Model β)
    (hcall : ∀ (tv ntv : List α) (x : α) (b : Bool),
      m2.stateless_call (tv.map h) (ntv.map h) (h x) b =
        (h (m.stateless_call tv ntv x b).1,
         (m.stateless_call tv ntv x b).2.map h))
    (hloss : ∀ x y yp : α,
      m2.compute_loss (h x) (h y) (h yp) = h (m.compute_loss x y yp))
    (tv ntv : List α) (x y : α) (b : Bool) :
    compute_loss_and_updates m2 (tv.map h) (ntv.map h) (h x) (h y) b =
      (h (compute_loss_and_updates m tv ntv x y b).1,
       (h (compute_loss_and_updates m tv ntv x y b).2.1,
        (compute_loss_and_updates m tv ntv x y b).2.2.map h)) := by
  simp [compute_loss_and_updates, hcall, hloss]

/-- One metric-loop iteration commutes with a value translation that
commutes with the metric's primitives. -/
theorem metric_loop_step_hom {α β : Type} (h : α → β) (loss y y_pred : α)
    (mv : List α) (ma : Metric α) (mb : Metric β)
    (hab : MetricHom h ma mb) (acc : Option α × List α) :
    metric_loop_step (h loss) (h y) (h y_pred) (mv.map h)
      (acc.1.map h, acc.2.map h) mb =
      ((metric_loop_step loss y y_pred mv acc ma).1.map h,
       (metric_loop_step loss y y_pred mv acc ma).2.map h) := by
  obtain ⟨hname, hlenv, hul, hup, hres⟩ := hab
  have hslice : ((mv.map h).drop (acc.2.map h).length).take mb.vars.length =
      ((mv.drop acc.2.length).take ma.vars.length).map h := by
    rw [List.length_map, hlenv, List.map_take, List.map_drop]
  have hupd : updated_metric_vars mb (h loss) (h y) (h y_pred)
      (((mv.drop acc.2.length).take ma.vars.length).map h) =
      (updated_metric_vars ma loss y y_pred
        ((mv.drop acc.2.length).take ma.vars.length)).map h := by
    simp only [updated_metric_vars, hname]
    by_cases hn : ma.name = "loss"
    · rw [if_pos hn, if_pos hn]
      exact hul _ _
    · rw [if_neg hn, if_neg hn]
      exact hup _ _ _
  simp only [metric_loop_step]
  rw [hslice, hupd, hres]
  simp [List.map_append]

/-- The metric loop commutes with a value translation that commutes with
every metric's primitives. -/
theorem metric_loop_foldl_hom {α β : Type} (h : α → β)
    (loss y y_pred : α) (mv : List α) :
    ∀ {ms : List (Metric α)} {ms2 : List (Metric β)},
      List.Forall₂ (MetricHom h) ms ms2 →
      ∀ acc : Option α × List α,
        ms2.foldl (metric_loop_step (h loss) (h y) (h y_pred) (mv.map h))
          (acc.1.map h, acc.2.map h) =
        ((ms.foldl (metric_loop_step loss y y_pred mv) acc).1.map h,
         (ms.foldl (metric_loop_step loss y y_pred mv) acc).2.map h) := by
  intro ms ms2 hf
  induction hf with
  | nil => intro acc; rfl
  | cons hab hrest ih =>
    intro acc
    simp only [List.foldl_cons]
    rw [metric_loop_step_hom h loss y y_pred mv _ _ hab acc]
    exact ih _

/-! ## Claims -/

/-- C2: for every input tensor of shape (3, 3), the Sequential model built
from the three layers `Dense(2, relu)`, `Dense(3, relu)`, `Dense(4)`
applied to `x` equals `layer3(layer2(layer1(x)))` with the same weights;
and in general a Sequential model of single-input single-output layers is
the left-to-right composition of its layers. -/
theorem sequential_equals_layer_composition
    (l1 l2 l3 : DenseLayer) (x : Tensor)
    (hrows : x.length = 3) (hcols : ∀ r ∈ x, r.length = 3)
    (hu1 : l1.units = 2) (ha1 : l1.activation = relu)
    (hu2 : l2.units = 3) (ha2 : l2.activation = relu)
    (hu3 : l3.units = 4) :
    sequential_call [l1.call, l2.call, l3.call] x =
      l3.call (l2.call (l1.call x)) ∧
    ∀ (ls : List (Tensor → Tensor)) (t : Tensor),
      sequential_call ls t = compose_layers ls t :=
  ⟨rfl, fun ls t => sequential_call_eq_compose_layers ls t⟩

/-- C2 witness: the guide's three-layer stack on `ops.ones((3, 3))` with
concrete weights. -/
theorem sequential_equals_layer_composition_witness :
    sequential_call [guideLayer1.call, guideLayer2.call, guideLayer3.call]
        (ones 3 3) =
      guideLayer3.call (guideLayer2.call (guideLayer1.call (ones 3 3))) :=
  (sequential_equals_layer_composition guideLayer1 guideLayer2 guideLayer3
    (ones 3 3) (by decide) (by decide) rfl rfl rfl rfl rfl).1

/-- C5 counterexample: the `pop()` snippet is not independent of the
snippets before it — run in isolation it fails with a `NameError`, while
run after the `add()` snippet it succeeds and prints 2. -/
theorem snippet_pop_not_independent :
    run_snippets [snippet_pop] none ≠
      run_snippets [snippet_add, snippet_pop] none := by
  intro h
  simp [run_snippets, snippet_add, snippet_pop] at h

/-- C5 (amended): most snippets are self-contained, but some read state
created by earlier snippets: run after the `add()` snippet, `pop()` prints
2 as documented, while in isolation the name `model` is undefined and the
snippet errors. -/
theorem snippet_pop_reads_prior_state :
    run_snippets [snippet_add, snippet_pop] none =
      .ok (some ⟨[2, 3], none⟩, some 2) ∧
    snippet_pop none = .error "NameError: name model is not defined" :=
  ⟨rfl, rfl⟩

/-- C6 counterexample: the Sequential guide does give the model a
lifecycle with distinct states and a transition: the freshly constructed
three-layer model is unbuilt (`model.weights` errors), and after its first
call on a 4-dimensional input it is a different, built state with 6
weights. -/
theorem sequential_lifecycle_shown :
    (SequentialModel.mk [2, 3, 4] none).weights =
      .error "weights have not yet been created" ∧
    ((SequentialModel.mk [2, 3, 4] none).call 4).weights =
      .ok (seqWeightShapes 4 [2, 3, 4]) ∧
    (seqWeightShapes 4 [2, 3, 4]).length = 6 ∧
    (SequentialModel.mk [2, 3, 4] none).call 4 ≠
      SequentialModel.mk [2, 3, 4] none := by
  refine ⟨rfl, rfl, rfl, ?_⟩
  decide

/-- C6 (amended): the repository implements no lifecycle logic of its own,
but the guide documents the external framework's built/unbuilt lifecycle
of Sequential models: an unbuilt model has no weights and `model.weights`
errors; the first call on input data builds it, after which it has two
weight variables per Dense layer (6 for the three-layer model). -/
theorem sequential_built_unbuilt_lifecycle (m : SequentialModel)
    (h : m.built_input_dim = none) (d : Nat) :
    m.weights = .error "weights have not yet been created" ∧
    (m.call d).weights = .ok (seqWeightShapes d m.layer_units) ∧
    (seqWeightShapes d m.layer_units).length = 2 * m.layer_units.length := by
  refine ⟨?_, ?_, seqWeightShapes_length d m.layer_units⟩
  · simp [SequentialModel.weights, h]
  · simp [SequentialModel.call, SequentialModel.weights, h]

/-- C6 witness: the guide's three-layer model, built on a 4-dimensional
input, has 6 = 2 · 3 weights. -/
theorem sequential_built_unbuilt_lifecycle_witness :
    (SequentialModel.mk [2, 3, 4] none).weights =
      .error "weights have not yet been created" ∧
    ((SequentialModel.mk [2, 3, 4] none).call 4).weights =
      .ok (seqWeightShapes 4 [2, 3, 4]) ∧
    (seqWeightShapes 4 [2, 3, 4]).length = 2 * ([2, 3, 4] : List Nat).length :=
  sequential_built_unbuilt_lifecycle ⟨[2, 3, 4], none⟩ rfl 4

/-- C7: the repository implements no failure handling: the unbuilt-model
failure the guide mentions comes from the external framework, any error is
absorbed by the rest of the snippet run without being handled, and the
guide's executed build-and-call snippet (with the failing lines commented
out) succeeds with the documented output 6. -/
theorem failures_propagate_unhandled (m : SequentialModel)
    (h : m.built_input_dim = none) :
    m.weights = .error "weights have not yet been created" ∧
    (∀ k : List (List Nat) → Except String Nat,
      m.weights.bind k = .error "weights have not yet been created") ∧
    (∀ (snips more : List (Option SequentialModel → SnippetResult))
        (env : Option SequentialModel) (e : String),
      run_snippets snips env = .error e →
      run_snippets (snips ++ more) env = .error e) ∧
    snippet_build_and_call none = .ok (some ⟨[2, 3, 4], some 4⟩, some 6) := by
  refine ⟨?_, ?_, ?_, rfl⟩
  · simp [SequentialModel.weights, h]
  · intro k
    simp [SequentialModel.weights, h, Except.bind]
  · intro snips more env e herr
    show (snips ++ more).foldl _ _ = _
    rw [List.foldl_append]
    rw [show snips.foldl _ _ = Except.error e from herr]
    exact foldl_snippet_error more e

/-- C7 witness: the guide's freshly constructed three-layer model. -/
theorem failures_propagate_unhandled_witness :
    (SequentialModel.mk [2, 3, 4] none).weights =
      .error "weights have not yet been created" :=
  (failures_propagate_unhandled ⟨[2, 3, 4], none⟩ rfl).1

/-- C9: the parameter counts and output shapes of the guide's summary
tables follow the standard formulas and are mutually consistent: Dense
counts 10, 9, 16 summing to 35; Conv2D counts 2,432 and 9,248 with totals
11,680 and 48,672; MaxPooling2D contributes 0; and the spatial sizes,
including the intermediate (40, 40, 32), follow the floor formulas from a
250×250×3 input. -/
theorem summary_tables_follow_formulas :
    dense_stack_param_column =
      [dense_param_count 4 2, dense_param_count 2 3, dense_param_count 3 4] ∧
    dense_stack_param_column.sum = dense_stack_total ∧
    conv_block1_param_column =
      [conv2d_param_count 5 3 32, conv2d_param_count 3 32 32, 0] ∧
    conv_block1_param_column.sum = conv_block1_total ∧
    conv_block2_param_column =
      [conv2d_param_count 5 3 32, conv2d_param_count 3 32 32, 0,
       conv2d_param_count 3 32 32, conv2d_param_count 3 32 32, 0,
       conv2d_param_count 3 32 32, conv2d_param_count 3 32 32, 0] ∧
    conv_block2_param_column.sum = conv_block2_total ∧
    conv_stack_trace = conv_block2_spatial_sizes ∧
    conv_block1_spatial_sizes = conv_block2_spatial_sizes.take 3 ∧
    max_pool_output_size (conv2d_output_size (conv2d_output_size 250 5 2) 3 1) 3
      = 40 := by
  decide

/-- C10: in the notebook's first `CustomModel.train_step` and in
`CustomModel.test_step` the returned `logs` is the value assigned in the
final iteration of the metric loop — the last metric's
`stateless_result` of its own updated variables only — while
`new_metrics_vars` concatenates every metric's updated variables in order,
so its length equals that of the incoming `metrics_variables`. -/
theorem logs_last_metric_and_vars_concat {α : Type} (m : Model α)
    (loss y y_pred : α) (mv : List α)
    (hne : m.metrics ≠ [])
    (hpres : ∀ metric ∈ m.metrics, ∀ l : List α,
      (updated_metric_vars metric loss y y_pred l).length = l.length)
    (hlen : mv.length =
      (m.metrics.map (fun metric => metric.vars.length)).sum) :
    (metric_update_loop m loss y y_pred mv).1 =
      some ((m.metrics.getLast hne).stateless_result
        (updated_metric_vars (m.metrics.getLast hne) loss y y_pred
          ((mv.drop
            ((m.metrics.dropLast.map
              (fun metric => metric.vars.length)).sum)).take
            (m.metrics.getLast hne).vars.length))) ∧
    (metric_update_loop m loss y y_pred mv).2.length = mv.length ∧
    (∀ (s : TrainState α) (d : α × α),
      (train_step m s d).1 =
        (metric_update_loop m
          (compute_loss_and_updates m s.trainable_variables
            s.non_trainable_variables d.1 d.2 true).1
          d.2
          (compute_loss_and_updates m s.trainable_variables
            s.non_trainable_variables d.1 d.2 true).2.1
          s.metrics_variables).1 ∧
      (train_step m s d).2.metrics_variables =
        (metric_update_loop m
          (compute_loss_and_updates m s.trainable_variables
            s.non_trainable_variables d.1 d.2 true).1
          d.2
          (compute_loss_and_updates m s.trainable_variables
            s.non_trainable_variables d.1 d.2 true).2.1
          s.metrics_variables).2) ∧
    (∀ (t : TestState α) (d : α × α),
      (test_step m t d).1 =
        (metric_update_loop m
          (m.compute_loss d.1 d.2
            (m.stateless_call t.trainable_variables
              t.non_trainable_variables d.1 false).1)
          d.2
          (m.stateless_call t.trainable_variables
            t.non_trainable_variables d.1 false).1
          t.metrics_variables).1 ∧
      (test_step m t d).2.metrics_variables =
        (metric_update_loop m
          (m.compute_loss d.1 d.2
            (m.stateless_call t.trainable_variables
              t.non_trainable_variables d.1 false).1)
          d.2
          (m.stateless_call t.trainable_variables
            t.non_trainable_variables d.1 false).1
          t.metrics_variables).2) := by
  have hsplit := List.dropLast_append_getLast hne
  refine ⟨?_, ?_, fun s d => ⟨rfl, rfl⟩, fun t d => ⟨rfl, rfl⟩⟩
  · have hsum :
        (m.metrics.dropLast.map (fun metric => metric.vars.length)).sum +
          (m.metrics.getLast hne).vars.length = mv.length := by
      rw [hlen]
      conv_rhs => rw [← hsplit]
      simp
    have hoff :
        ((m.metrics.dropLast.foldl (metric_loop_step loss y y_pred mv)
          (none, [])).2).length =
        (m.metrics.dropLast.map (fun metric => metric.vars.length)).sum := by
      have := metric_loop_foldl_length loss y y_pred mv m.metrics.dropLast
        ((none : Option α), ([] : List α))
        (fun m2 hm2 => hpres m2 (List.mem_of_mem_dropLast hm2))
        (by simp only [List.length_nil, Nat.zero_add]; omega)
      simpa using this
    show (m.metrics.foldl (metric_loop_step loss y y_pred mv) (none, [])).1 = _
    conv_lhs => rw [← hsplit]
    rw [metric_loop_foldl_last loss y y_pred mv m.metrics.dropLast
      (m.metrics.getLast hne) ((none : Option α), ([] : List α))]
    rw [hoff]
  · have := metric_loop_foldl_length loss y y_pred mv m.metrics
      ((none : Option α), ([] : List α)) hpres (by simp [hlen])
    simpa [metric_update_loop, ← hlen] using this

/-- C3: every operation shown in the notebook (stateless forward pass,
gradient computation, optimizer apply, metric update) is a direct call
into the external framework's pre-built implementation: the embedded step
functions commute with every translation of values that commutes with the
framework primitives, so no operation's algorithm is implemented by the
repository's own code. -/
theorem operations_delegated_to_framework {α β : Type} (h : α → β)
    (m : Model α) (m2 : Model β)
    (hcall : ∀ (tv ntv : List α) (x : α) (b : Bool),
      m2.stateless_call (tv.map h) (ntv.map h) (h x) b =
        (h (m.stateless_call tv ntv x b).1,
         (m.stateless_call tv ntv x b).2.map h))
    (hloss : ∀ x y yp : α,
      m2.compute_loss (h x) (h y) (h yp) = h (m.compute_loss x y yp))
    (happly : ∀ ov g tv : List α,
      m2.optimizer_stateless_apply (ov.map h) (g.map h) (tv.map h) =
        ((m.optimizer_stateless_apply ov g tv).1.map h,
         (m.optimizer_stateless_apply ov g tv).2.map h))
    (hgrad : ∀ (f : List α → α) (g : List β → β),
      (∀ l, g (l.map h) = h (f l)) →
      ∀ tv, m2.grad g (tv.map h) = (m.grad f tv).map h)
    (hmet : List.Forall₂ (MetricHom h) m.metrics m2.metrics)
    (s : TrainState α) (t : TestState α) (d : α × α) :
    train_step m2
      ⟨s.trainable_variables.map h, s.non_trainable_variables.map h,
       s.optimizer_variables.map h, s.metrics_variables.map h⟩
      (h d.1, h d.2) =
      ((train_step m s d).1.map h,
       ⟨(train_step m s d).2.trainable_variables.map h,
        (train_step m s d).2.non_trainable_variables.map h,
        (train_step m s d).2.optimizer_variables.map h,
        (train_step m s d).2.metrics_variables.map h⟩) ∧
    test_step m2
      ⟨t.trainable_variables.map h, t.non_trainable_variables.map h,
       t.metrics_variables.map h⟩
      (h d.1, h d.2) =
      ((test_step m t d).1.map h,
       ⟨(test_step m t d).2.trainable_variables.map h,
        (test_step m t d).2.non_trainable_variables.map h,
        (test_step m t d).2.metrics_variables.map h⟩) := by
  have hclu := compute_loss_and_updates_hom h m m2 hcall hloss
  constructor
  · have hgrads :
        m2.grad
          (fun v => (compute_loss_and_updates m2 v
            (s.non_trainable_variables.map h) (h d.1) (h d.2) true).1)
          (s.trainable_variables.map h) =
        (m.grad
          (fun v => (compute_loss_and_updates m v
            s.non_trainable_variables d.1 d.2 true).1)
          s.trainable_variables).map h := by
      refine hgrad _ _ (fun l => ?_) _
      rw [hclu l s.non_trainable_variables d.1 d.2 true]
    have hloop := metric_loop_foldl_hom h
      (compute_loss_and_updates m s.trainable_variables
        s.non_trainable_variables d.1 d.2 true).1
      d.2
      (compute_loss_and_updates m s.trainable_variables
        s.non_trainable_variables d.1 d.2 true).2.1
      s.metrics_variables hmet ((none : Option α), ([] : List α))
    simp only [Option.map_none', List.map_nil] at hloop
    simp only [train_step, value_and_grad, metric_update_loop]
    rw [hclu s.trainable_variables s.non_trainable_variables d.1 d.2 true]
    dsimp only
    rw [hgrads, happly, hloop]
  · have hloopT := metric_loop_foldl_hom h
      (m.compute_loss d.1 d.2
        (m.stateless_call t.trainable_variables
          t.non_trainable_variables d.1 false).1)
      d.2
      (m.stateless_call t.trainable_variables
        t.non_trainable_variables d.1 false).1
      t.metrics_variables hmet ((none : Option α), ([] : List α))
    simp only [Option.map_none', List.map_nil] at hloopT
    simp only [test_step, metric_update_loop]
    rw [hcall t.trainable_variables t.non_trainable_variables d.1 false]
    dsimp only
    rw [hloss d.1 d.2
      (m.stateless_call t.trainable_variables
        t.non_trainable_variables d.1 false).1]
    rw [hloopT]

/-- C3 witness: the identity translation on the concrete `Int`
instantiation. -/
theorem operations_delegated_to_framework_witness :
    train_step intModel
        ⟨[1, 2].map (fun a : Int => a), [3].map (fun a : Int => a),
         [4].map (fun a : Int => a), [0, 0, 0].map (fun a : Int => a)⟩
        (4, 5) =
      ((train_step intModel intTrainState (4, 5)).1.map (fun a : Int => a),
       ⟨(train_step intModel intTrainState
          (4, 5)).2.trainable_variables.map (fun a : Int => a),
        (train_step intModel intTrainState
          (4, 5)).2.non_trainable_variables.map (fun a : Int => a),
        (train_step intModel intTrainState
          (4, 5)).2.optimizer_variables.map (fun a : Int => a),
        (train_step intModel intTrainState
          (4, 5)).2.metrics_variables.map (fun a : Int => a)⟩) :=
  (operations_delegated_to_framework (fun a : Int => a) intModel intModel
    (by intro tv ntv x b; simp [intModel])
    (by intro x y yp; simp)
    (by intro ov g tv; simp [intModel])
    (by intro f g hfg tv; simp [intModel])
    (by
      refine List.Forall₂.cons ?_ (List.Forall₂.cons ?_ List.Forall₂.nil)
      · exact ⟨rfl, rfl, by intro l v; simp [intMetricLoss],
          by intro l y p; simp [intMetricLoss],
          by intro l; simp [intMetricLoss]⟩
      · exact ⟨rfl, rfl, by intro l v; simp [intMetricMae],
          by intro l y p; simp [intMetricMae],
          by intro l; simp [intMetricMae]⟩)
    intTrainState intTestState (4, 5)).1

/-- C4 counterexample: the notebook's source does define methods of its
own with behavior specifiable and testable independently of the external
framework: under two framework instantiations whose numeric primitives all
differ, `train_step` returns the same logs (decided by the
repository-defined metric loop alone), and swapping the metric list
changes the logs even with the framework primitives fixed. -/
theorem custom_model_behavior_exists :
    (train_step intModelConstMetrics intTrainState (4, 5)).1 = some 7 ∧
    (train_step intModelB intTrainState (4, 5)).1 = some 7 ∧
    intModelConstMetrics.compute_loss 0 0 0 ≠ intModelB.compute_loss 0 0 0 ∧
    (train_step intModelSwapped intTrainState (4, 5)).1 ≠
      (train_step intModel intTrainState (4, 5)).1 :=
  ⟨rfl, rfl, by decide, by decide⟩

/-- C4 (amended): the repository's source files define only thin
orchestration methods (`CustomModel.compute_loss_and_updates`,
`train_step`, `test_step`) over external-framework primitives; these do
have specifiable behavior of their own — with two metrics whose results
are the constants `r1` and `r2`, the logs returned by `train_step` and
`test_step` are `r2`, whatever the framework's numeric primitives do —
although every numerical algorithm they invoke belongs to the external
framework. -/
theorem custom_model_orchestration_specifiable (m : Model Int)
    (r1 r2 : Int)
    (hm : m.metrics = [constMetric "m1" 1 r1, constMetric "m2" 1 r2])
    (s : TrainState Int) (t : TestState Int) (d : Int × Int) :
    (train_step m s d).1 = some r2 ∧ (test_step m t d).1 = some r2 := by
  constructor <;>
    simp [train_step, test_step, metric_update_loop, hm, metric_loop_step,
      updated_metric_vars, constMetric]

/-- C4 witness: the concrete constant-metric model over `Int`. -/
theorem custom_model_orchestration_specifiable_witness :
    (train_step intModelConstMetrics intTrainState (4, 5)).1 = some 7 ∧
    (test_step intModelConstMetrics intTestState (4, 5)).1 = some 7 :=
  custom_model_orchestration_specifiable intModelConstMetrics 3 7 rfl
    intTrainState intTestState (4, 5)

/-- C10 witness: a concrete two-metric run over `Int`: the loop preserves
the metric-variable count. -/
theorem logs_last_metric_and_vars_concat_witness :
    (metric_update_loop intModel 5 1 2 [0, 0, 0]).2.length =
      ([0, 0, 0] : List Int).length :=
  (logs_last_metric_and_vars_concat intModel 5 1 2 [0, 0, 0]
    (by simp [intModel])
    (by
      intro metric hm l
      simp [intModel] at hm
      rcases hm with h | h <;> subst h <;>
        simp [updated_metric_vars, intMetricLoss, intMetricMae])
    rfl).2.1

/-- C1: `compute_loss_and_updates`, `train_step` and `test_step` are pure
functions over explicit state tuples: each returns its logs and new state
tuple as a value, leaves the model object unchanged (no method body
assigns a `self` attribute), and two runs on equal inputs yield equal
outputs. -/
theorem step_functions_pure {α : Type} (m : Model α)
    (s1 s2 : TrainState α) (t1 t2 : TestState α) (d1 d2 : α × α)
    (hs : s1 = s2) (ht : t1 = t2) (hd : d1 = d2) :
    (train_step_method m s1 d1).1 = m ∧
    train_step_method m s1 d1 = train_step_method m s2 d2 ∧
    (test_step_method m t1 d1).1 = m ∧
    test_step_method m t1 d1 = test_step_method m t2 d2 ∧
    (∀ (tv ntv : List α) (x y : α) (tr : Bool),
      (compute_loss_and_updates_method m tv ntv x y tr).1 = m) := by
  subst hs; subst ht; subst hd
  exact ⟨rfl, rfl, rfl, rfl, fun _ _ _ _ _ => rfl⟩

/-- C1 witness: a concrete run over `Int`. -/
theorem step_functions_pure_witness :
    (train_step_method intModel intTrainState (1, 2)).1 = intModel ∧
    train_step_method intModel intTrainState (1, 2) =
      train_step_method intModel intTrainState (1, 2) :=
  ⟨(step_functions_pure intModel intTrainState intTrainState intTestState
      intTestState (1, 2) (1, 2) rfl rfl rfl).1,
   (step_functions_pure intModel intTrainState intTrainState intTestState
      intTestState (1, 2) (1, 2) rfl rfl rfl).2.1⟩

/-- C8: in `train_step`, gradients are obtained only via
`jax.value_and_grad` applied to the loss function (whose value part is
`compute_loss_and_updates` itself and whose gradient part is the external
autodiff operator), and the new trainable and optimizer variables are
exactly the result of `self.optimizer.stateless_apply` on those gradients;
the repository's code computes no derivative or update rule itself. -/
theorem updates_delegated_to_framework {α : Type} (m : Model α)
    (s : TrainState α) (d : α × α) :
    (∀ (f : List α → α × (α × List α)) (tv : List α),
      value_and_grad m f tv = (f tv, m.grad (fun v => (f v).1) tv)) ∧
    (train_step m s d).2.trainable_variables =
      (m.optimizer_stateless_apply s.optimizer_variables
        (m.grad
          (fun tv => (compute_loss_and_updates m tv
            s.non_trainable_variables d.1 d.2 true).1)
          s.trainable_variables)
        s.trainable_variables).1 ∧
    (train_step m s d).2.optimizer_variables =
      (m.optimizer_stateless_apply s.optimizer_variables
        (m.grad
          (fun tv => (compute_loss_and_updates m tv
            s.non_trainable_variables d.1 d.2 true).1)
          s.trainable_variables)
        s.trainable_variables).2 :=
  ⟨fun _ _ => rfl, rfl, rfl⟩

end Guides
